import Mathlib

/-!
# Verification of the Iris prediction app (src/iris_app.py)

Shallow embedding of the single-file Streamlit application.  Floats are
modelled as rationals (the script only compares inputs for exact equality
and does elementary arithmetic on confidences), the model boundary
(scikit-learn fitted models) is an opaque environment of functions that
may fail, and the `try/except` block is `Except Unit`.  One execution of
the top-level script body (one render cycle) is the function
`renderCycle`.
-/

namespace IrisApp

/-- The four numeric inputs read from the UI controls each render
(lines 61-65 of `iris_app.py`). -/
structure Inputs where
  sepal_length : ℚ
  sepal_width : ℚ
  petal_length : ℚ
  petal_width : ℚ
deriving DecidableEq, Repr

/-- `st.session_state` keys used by the script.  The outer `Option` is key
presence (the Python test of whether the key `species` is in `st.session_state`); for `species` and `confidence`
the inner `Option` is the stored value, which the except-branch sets to
Python `None` (lines 96-97). -/
structure SessionState where
  sepal_length : Option ℚ
  sepal_width : Option ℚ
  petal_length : Option ℚ
  petal_width : Option ℚ
  species : Option (Option String)
  confidence : Option (Option ℚ)
deriving DecidableEq, Repr

/-- A fresh session: no `st.session_state` keys set. -/
def initState : SessionState :=
  ⟨none, none, none, none, none, none⟩

/-- The per-process environment fixed after startup: the species column of the loaded
dataset (`none` models `load_data` returning `None`) and the two
fitted models as opaque predict boundaries that may raise (lines 28-33).
`linearPredict` is `linear_model.predict(input_data)[0]` (a real number),
`logisticPredict` is `logistic_model.predict(input_data)[0]` (an encoded
class), `logisticProba` is `logistic_model.predict_proba(input_data)[0]`. -/
structure Env where
  df : Option (List String)
  linearPredict : Inputs → Except Unit ℚ
  logisticPredict : Inputs → Except Unit ℤ
  logisticProba : Inputs → Except Unit (List ℚ)

/-- `load_data` (lines 7-14): `pd.read_csv` either yields the table or
raises; the broad `except` converts any failure into `None`.  Only the
species column of the table is relevant to the embedded logic. -/
def load_data (fetch : Except String (List String)) : Option (List String) :=
  match fetch with
  | .ok d => some d
  | .error _ => none

/-- `le.fit_transform` class table (lines 20-21): the scikit-learn
`LabelEncoder` assigns codes by sorted distinct label values, so
`classes_` is the lexicographically sorted deduplicated species column. -/
def leClasses (labels : List String) : List String :=
  (labels.dedup).insertionSort (· ≤ ·)

/-- `encode`: the integer code of a label, its index in `classes_`. -/
def leEncode (labels : List String) (lab : String) : ℕ :=
  (leClasses labels).indexOf lab

/-- `le.inverse_transform([i])[0]` (lines 85, 90): decoding an integer
outside the fitted range `[0, k-1]` raises a `ValueError` (unseen label),
modelled as `.error ()`. -/
def inverse_transform (classes : List String) (i : ℤ) : Except Unit String :=
  if h : 0 ≤ i ∧ i.toNat < classes.length then
    .ok (classes.get ⟨i.toNat, h.2⟩)
  else
    .error ()

/-- Python `round` on the raw prediction (line 84): round half to even. -/
def roundHalfEven (q : ℚ) : ℤ :=
  let f := ⌊q⌋
  let r := q - f
  if r < 1/2 then f
  else if 1/2 < r then f + 1
  else if f % 2 = 0 then f else f + 1

/-- Python `max(proba)` (line 91): raises on an empty sequence. -/
def pyMax (l : List ℚ) : Except Unit ℚ :=
  match l.max? with
  | some m => .ok m
  | none => .error ()

/-- The body of the `try` block (lines 80-91): compute `(species,
confidence)` with the selected model, any failure escaping to the
`except`.  The script branches on `selected_model == "Linear Regression"`
and treats every other selection as logistic (line 82, line 87). -/
def predictBlock (classes : List String) (env : Env) (selected : String)
    (cur : Inputs) : Except Unit (String × ℚ) :=
  if selected = "Linear Regression" then do
    let prediction ← env.linearPredict cur
    let predicted_class := roundHalfEven prediction
    let species ← inverse_transform classes predicted_class
    let confidence := 1 - |prediction - (predicted_class : ℚ)|
    .ok (species, confidence)
  else do
    let prediction ← env.logisticPredict cur
    let proba ← env.logisticProba cur
    let species ← inverse_transform classes prediction
    let confidence ← pyMax proba
    .ok (species, confidence)

/-- The change gate (lines 68-72): recompute iff the `species` key is
absent or any stored input differs (exact inequality) from the current
one.  (When the `species` key is present, every reachable state also has
the four input keys present, so comparing `Option` values is faithful.) -/
def gateOpen (s : SessionState) (cur : Inputs) : Prop :=
  s.species = none ∨
    s.sepal_length ≠ some cur.sepal_length ∨
    s.sepal_width ≠ some cur.sepal_width ∨
    s.petal_length ≠ some cur.petal_length ∨
    s.petal_width ≠ some cur.petal_width

instance (s : SessionState) (cur : Inputs) : Decidable (gateOpen s cur) := by
  unfold gateOpen
  infer_instance

/-- Lines 74-77 then 93-97: store the current inputs, then either the
successful `(species, confidence)` pair or the explicit `None` pair from
the `except` branch. -/
def applyResult (s : SessionState) (cur : Inputs)
    (res : Except Unit (String × ℚ)) : SessionState :=
  let s1 : SessionState :=
    { s with
      sepal_length := some cur.sepal_length
      sepal_width := some cur.sepal_width
      petal_length := some cur.petal_length
      petal_width := some cur.petal_width }
  match res with
  | .ok (sp, c) => { s1 with species := some (some sp), confidence := some (some c) }
  | .error _ => { s1 with species := some none, confidence := some none }

/-- Python `str.capitalize` (line 110): first character uppercased, the
rest lowercased. -/
def pyCapitalize (s : String) : String :=
  match s.data with
  | [] => ""
  | c :: rest => String.mk (c.toUpper :: rest.map Char.toLower)

/-- Two-digit zero padding for the fractional part. -/
def pad2 (n : ℕ) : String :=
  if n < 10 then "0" ++ toString n else toString n

/-- Python format spec `:.2f` (line 110): two decimal places, ties to
even. -/
def format2dp (q : ℚ) : String :=
  let n := roundHalfEven (q * 100)
  if n < 0 then
    "-" ++ toString ((-n).toNat / 100) ++ "." ++ pad2 ((-n).toNat % 100)
  else
    toString (n.toNat / 100) ++ "." ++ pad2 (n.toNat % 100)

/-- The colour chain (lines 102-107): `green` if the percentage is at
least 80, else `red` if below 50, else `orange`. -/
def colorOf (pct : ℚ) : String :=
  if pct ≥ 80 then "green"
  else if pct < 50 then "red"
  else "orange"

/-- The structured content of the markdown line of line 110. -/
structure RenderLine where
  speciesText : String
  percentText : String
  color : String
deriving DecidableEq, Repr

/-- The result display block (lines 100-111).  `.ok none` is a blank
region; `.ok (some line)` is the markdown line; `.error ()` is an
uncaught exception: the guard of line 100 only checks truthiness of
`species`, and line 101 then evaluates `st.session_state.confidence *
100`, which raises if the `confidence` key is absent or holds `None`. -/
def renderResult (s : SessionState) : Except Unit (Option RenderLine) :=
  match s.species with
  | some (some name) =>
    if name = "" then .ok none
    else
      match s.confidence with
      | some (some c) =>
        let pct := c * 100
        .ok (some ⟨pyCapitalize name, format2dp pct, colorOf pct⟩)
      | _ => .error ()
  | _ => .ok none

/-- What one render cycle leaves on the page: the warning banner of line
113 and the prediction region. -/
structure Output where
  warning : Bool
  line : Except Unit (Option RenderLine)
deriving Repr

/-- One execution of the top-level script body for a given environment,
radio selection and current inputs: the `if df is not None` split (lines
18 and 112-113), the change gate, the `try/except` prediction, and the
display block.  The third component counts predict calls made on the
active model in this cycle. -/
def renderCycle (env : Env) (selected : String) (cur : Inputs)
    (s : SessionState) : SessionState × Output × ℕ :=
  match env.df with
  | none => (s, ⟨true, .ok none⟩, 0)
  | some speciesCol =>
    let classes := leClasses speciesCol
    if gateOpen s cur then
      let s2 := applyResult s cur (predictBlock classes env selected cur)
      (s2, ⟨false, renderResult s2⟩, 1)
    else
      (s, ⟨false, renderResult s⟩, 0)

/-- Session states reachable by repeated render cycles in a fixed
process environment, from a fresh session. -/
inductive Reachable (env : Env) : SessionState → Prop
  | init : Reachable env initState
  | step (s : SessionState) (selected : String) (cur : Inputs) :
      Reachable env s → Reachable env (renderCycle env selected cur s).1

/-! ## Helper lemmas -/

/-- A render cycle with the dataset loaded and the gate open recomputes
and persists, then renders the updated state. -/
lemma renderCycle_open {env : Env} {col : List String} (selected : String)
    (cur : Inputs) (s : SessionState) (hdf : env.df = some col)
    (hgate : gateOpen s cur) :
    renderCycle env selected cur s =
      (applyResult s cur (predictBlock (leClasses col) env selected cur),
       ⟨false, renderResult
          (applyResult s cur (predictBlock (leClasses col) env selected cur))⟩,
       1) := by
  simp only [renderCycle, hdf, if_pos hgate]

/-- A render cycle with the dataset loaded and the gate closed leaves the
state alone and renders it. -/
lemma renderCycle_closed {env : Env} {col : List String} (selected : String)
    (cur : Inputs) (s : SessionState) (hdf : env.df = some col)
    (hgate : ¬ gateOpen s cur) :
    renderCycle env selected cur s = (s, ⟨false, renderResult s⟩, 0) := by
  simp only [renderCycle, hdf, if_neg hgate]

/-- `applyResult` always stores the current inputs. -/
lemma applyResult_inputs (s : SessionState) (cur : Inputs)
    (res : Except Unit (String × ℚ)) :
    (applyResult s cur res).sepal_length = some cur.sepal_length ∧
    (applyResult s cur res).sepal_width = some cur.sepal_width ∧
    (applyResult s cur res).petal_length = some cur.petal_length ∧
    (applyResult s cur res).petal_width = some cur.petal_width := by
  cases res with
  | ok v => cases v; simp [applyResult]
  | error e => simp [applyResult]

/-- `applyResult` stores the produced pair on success and the explicit
`None` pair on failure. -/
lemma applyResult_pair (s : SessionState) (cur : Inputs) :
    (∀ sp c, (applyResult s cur (.ok (sp, c))).species = some (some sp) ∧
      (applyResult s cur (.ok (sp, c))).confidence = some (some c)) ∧
    (∀ e, (applyResult s cur (.error e)).species = some none ∧
      (applyResult s cur (.error e)).confidence = some none) := by
  constructor
  · intro sp c
    simp [applyResult]
  · intro e
    simp [applyResult]

/-- Rounding an exact integer is the identity. -/
lemma roundHalfEven_intCast (n : ℤ) : roundHalfEven (n : ℚ) = n := by
  simp [roundHalfEven, Int.floor_intCast]

/-- `roundHalfEven` yields a nearest integer: no integer is strictly
closer to `q` than `roundHalfEven q`. -/
lemma roundHalfEven_dist_le (q : ℚ) (m : ℤ) :
    |q - (roundHalfEven q : ℚ)| ≤ |q - (m : ℚ)| := by
  have hfl : ((⌊q⌋ : ℤ) : ℚ) ≤ q := Int.floor_le q
  have hfu : q < (⌊q⌋ : ℚ) + 1 := Int.lt_floor_add_one q
  have hm : (m : ℚ) ≤ (⌊q⌋ : ℚ) ∨ ((⌊q⌋ : ℚ) + 1 ≤ (m : ℚ)) := by
    rcases le_or_lt m ⌊q⌋ with h | h
    · exact Or.inl (by exact_mod_cast h)
    · right
      have : ⌊q⌋ + 1 ≤ m := h
      exact_mod_cast this
  simp only [roundHalfEven]
  split_ifs with h1 h2 h3
  · -- rounds down to the floor, distance `q - ⌊q⌋ < 1/2`
    rcases hm with h | h
    · calc |q - ((⌊q⌋ : ℤ) : ℚ)| = q - (⌊q⌋ : ℚ) := abs_of_nonneg (by linarith)
        _ ≤ q - (m : ℚ) := by linarith
        _ ≤ |q - (m : ℚ)| := le_abs_self _
    · calc |q - ((⌊q⌋ : ℤ) : ℚ)| = q - (⌊q⌋ : ℚ) := abs_of_nonneg (by linarith)
        _ ≤ (m : ℚ) - q := by linarith
        _ ≤ |q - (m : ℚ)| := by rw [abs_sub_comm]; exact le_abs_self _
  · -- rounds up, distance `⌊q⌋ + 1 - q < 1/2`
    rcases hm with h | h
    · calc |q - ((⌊q⌋ + 1 : ℤ) : ℚ)| = (⌊q⌋ : ℚ) + 1 - q := by
            push_cast
            rw [abs_of_nonpos (by linarith)]
            ring
        _ ≤ q - (m : ℚ) := by linarith
        _ ≤ |q - (m : ℚ)| := le_abs_self _
    · calc |q - ((⌊q⌋ + 1 : ℤ) : ℚ)| = (⌊q⌋ : ℚ) + 1 - q := by
            push_cast
            rw [abs_of_nonpos (by linarith)]
            ring
        _ ≤ (m : ℚ) - q := by linarith
        _ ≤ |q - (m : ℚ)| := by rw [abs_sub_comm]; exact le_abs_self _
  · -- exact tie, even floor: distance is 1/2 on both sides
    have htie : q - (⌊q⌋ : ℚ) = 1/2 := le_antisymm (not_lt.mp h2) (not_lt.mp h1)
    rcases hm with h | h
    · calc |q - ((⌊q⌋ : ℤ) : ℚ)| = q - (⌊q⌋ : ℚ) := abs_of_nonneg (by linarith)
        _ ≤ q - (m : ℚ) := by linarith
        _ ≤ |q - (m : ℚ)| := le_abs_self _
    · calc |q - ((⌊q⌋ : ℤ) : ℚ)| = q - (⌊q⌋ : ℚ) := abs_of_nonneg (by linarith)
        _ = (⌊q⌋ : ℚ) + 1 - q := by linarith
        _ ≤ (m : ℚ) - q := by linarith
        _ ≤ |q - (m : ℚ)| := by rw [abs_sub_comm]; exact le_abs_self _
  · -- exact tie, odd floor: rounds up, distance again 1/2
    have htie : q - (⌊q⌋ : ℚ) = 1/2 := le_antisymm (not_lt.mp h2) (not_lt.mp h1)
    rcases hm with h | h
    · calc |q - ((⌊q⌋ + 1 : ℤ) : ℚ)| = (⌊q⌋ : ℚ) + 1 - q := by
            push_cast
            rw [abs_of_nonpos (by linarith)]
            ring
        _ = q - (⌊q⌋ : ℚ) := by linarith
        _ ≤ q - (m : ℚ) := by linarith
        _ ≤ |q - (m : ℚ)| := le_abs_self _
    · calc |q - ((⌊q⌋ + 1 : ℤ) : ℚ)| = (⌊q⌋ : ℚ) + 1 - q := by
            push_cast
            rw [abs_of_nonpos (by linarith)]
            ring
        _ ≤ (m : ℚ) - q := by linarith
        _ ≤ |q - (m : ℚ)| := by rw [abs_sub_comm]; exact le_abs_self _

/-! ## Concrete fixtures for witnesses -/

/-- A small species column with a duplicate, standing in for the species
column of the loaded CSV. -/
def speciesEx : List String := ["setosa", "versicolor", "virginica", "setosa"]

/-- An environment whose two fitted models disagree at the default
inputs: the regression model predicts raw value `0` (class `0`,
"setosa", confidence 1) while the classifier predicts class `1`
("versicolor") with maximal probability `8/10`. -/
def envEx : Env :=
  { df := some speciesEx
    linearPredict := fun _ => .ok 0
    logisticPredict := fun _ => .ok 1
    logisticProba := fun _ => .ok [1/10, 8/10, 1/10] }

/-- The default control values of lines 61-65. -/
def i0 : Inputs := ⟨5, 3, 4, 1⟩

/-- A session state holding the default inputs and a persisted result. -/
def sEx : SessionState :=
  ⟨some 5, some 3, some 4, some 1, some (some "setosa"), some (some 1)⟩

/-- A session state with a persisted confidence of exactly `4/5`. -/
def sEx80 : SessionState :=
  ⟨some 5, some 3, some 4, some 1, some (some "setosa"), some (some (4/5))⟩

/-- An environment whose regression model predicts the exact integer
class value `1`. -/
def envExact : Env :=
  { df := some speciesEx
    linearPredict := fun _ => .ok 1
    logisticPredict := fun _ => .ok 1
    logisticProba := fun _ => .ok [1] }

lemma leClasses_speciesEx :
    leClasses speciesEx = ["setosa", "versicolor", "virginica"] := by
  simp only [leClasses, speciesEx, List.insertionSort, List.orderedInsert,
    List.dedup, String.le_iff_toList_le]
  decide

/-! ## Claims -/

/-- C7: the label codec fitted on the species column assigns the codes
`0..k-1` to the distinct species strings in lexicographically sorted
order (the class table is sorted and duplicate-free, and the code of a label
is its index in that table), and decoding the code of any species string
present in the training data returns that string. -/
theorem label_codec_sorted_roundtrip (labels : List String) (lab : String)
    (h : lab ∈ labels) :
    List.Sorted (· ≤ ·) (leClasses labels) ∧ (leClasses labels).Nodup ∧
    inverse_transform (leClasses labels) (leEncode labels lab) = .ok lab := by
  have hmem : lab ∈ leClasses labels := by
    unfold leClasses
    rw [(List.perm_insertionSort _ _).mem_iff]
    exact List.mem_dedup.mpr h
  have hlt : (leClasses labels).indexOf lab < (leClasses labels).length :=
    List.indexOf_lt_length.mpr hmem
  refine ⟨List.sorted_insertionSort _ _,
    ((List.perm_insertionSort _ _).nodup_iff).mpr (List.nodup_dedup _), ?_⟩
  have h0 : (0 : ℤ) ≤ ((leEncode labels lab : ℕ) : ℤ) := Int.ofNat_nonneg _
  have ht : (((leEncode labels lab : ℕ) : ℤ)).toNat = leEncode labels lab :=
    Int.toNat_natCast _
  unfold inverse_transform
  rw [dif_pos ⟨h0, by rw [ht]; exact hlt⟩]
  refine congrArg Except.ok ?_
  have := List.indexOf_get (a := lab) (l := leClasses labels) hlt
  simp only [leEncode]
  convert this using 2

/-- Witness for C7 at a concrete species column and label. -/
theorem label_codec_sorted_roundtrip_witness :
    List.Sorted (· ≤ ·) (leClasses speciesEx) ∧ (leClasses speciesEx).Nodup ∧
    inverse_transform (leClasses speciesEx) (leEncode speciesEx "virginica") =
      .ok "virginica" :=
  label_codec_sorted_roundtrip speciesEx "virginica" (by decide)

/-- C2: when the dataset is loaded, the `species` key is already
persisted (possibly holding the absent pair) and all four current inputs
equal the stored ones, a render cycle makes no predict call, leaves the
session state unchanged, and just renders the stored result. -/
theorem no_recompute_on_equal_inputs (env : Env) (col : List String)
    (selected : String) (cur : Inputs) (s : SessionState)
    (hdf : env.df = some col) (hsp : s.species ≠ none)
    (h1 : s.sepal_length = some cur.sepal_length)
    (h2 : s.sepal_width = some cur.sepal_width)
    (h3 : s.petal_length = some cur.petal_length)
    (h4 : s.petal_width = some cur.petal_width) :
    renderCycle env selected cur s = (s, ⟨false, renderResult s⟩, 0) := by
  refine renderCycle_closed selected cur s hdf ?_
  rintro (hg | hg | hg | hg | hg) <;> simp_all

/-- Witness for C2: identical inputs with a persisted result, under the
logistic selection. -/
theorem no_recompute_on_equal_inputs_witness :
    renderCycle envEx "Logistic Regression" i0 sEx =
      (sEx, ⟨false, renderResult sEx⟩, 0) :=
  no_recompute_on_equal_inputs envEx speciesEx "Logistic Regression" i0 sEx
    rfl (by simp [sEx]) rfl rfl rfl rfl

/-- C3: when the dataset is loaded and the current inputs differ from
the stored ones in some component or no prior result exists, the render
cycle makes exactly one predict call on the active model, persists the
new input tuple and the new result, and displays the updated state. -/
theorem recompute_on_change (env : Env) (col : List String)
    (selected : String) (cur : Inputs) (s : SessionState)
    (hdf : env.df = some col) (hgate : gateOpen s cur) :
    (renderCycle env selected cur s).2.2 = 1 ∧
    (renderCycle env selected cur s).1 =
      applyResult s cur (predictBlock (leClasses col) env selected cur) ∧
    (renderCycle env selected cur s).1.sepal_length = some cur.sepal_length ∧
    (renderCycle env selected cur s).1.sepal_width = some cur.sepal_width ∧
    (renderCycle env selected cur s).1.petal_length = some cur.petal_length ∧
    (renderCycle env selected cur s).1.petal_width = some cur.petal_width ∧
    (∀ sp c, predictBlock (leClasses col) env selected cur = .ok (sp, c) →
      (renderCycle env selected cur s).1.species = some (some sp) ∧
      (renderCycle env selected cur s).1.confidence = some (some c)) ∧
    (renderCycle env selected cur s).2.1 =
      ⟨false, renderResult (renderCycle env selected cur s).1⟩ := by
  rw [renderCycle_open selected cur s hdf hgate]
  obtain ⟨a1, a2, a3, a4⟩ :=
    applyResult_inputs s cur (predictBlock (leClasses col) env selected cur)
  refine ⟨rfl, rfl, a1, a2, a3, a4, ?_, rfl⟩
  intro sp c hok
  rw [hok]
  exact (applyResult_pair s cur).1 sp c

/-- Witness for C3: a fresh session (no prior result) recomputes once. -/
theorem recompute_on_change_witness :
    (renderCycle envEx "Linear Regression" i0 initState).2.2 = 1 ∧
    (renderCycle envEx "Linear Regression" i0 initState).1 =
      applyResult initState i0
        (predictBlock (leClasses speciesEx) envEx "Linear Regression" i0) ∧
    (renderCycle envEx "Linear Regression" i0 initState).1.sepal_length =
      some i0.sepal_length ∧
    (renderCycle envEx "Linear Regression" i0 initState).1.sepal_width =
      some i0.sepal_width ∧
    (renderCycle envEx "Linear Regression" i0 initState).1.petal_length =
      some i0.petal_length ∧
    (renderCycle envEx "Linear Regression" i0 initState).1.petal_width =
      some i0.petal_width ∧
    (∀ sp c,
      predictBlock (leClasses speciesEx) envEx "Linear Regression" i0 =
        .ok (sp, c) →
      (renderCycle envEx "Linear Regression" i0 initState).1.species =
        some (some sp) ∧
      (renderCycle envEx "Linear Regression" i0 initState).1.confidence =
        some (some c)) ∧
    (renderCycle envEx "Linear Regression" i0 initState).2.1 =
      ⟨false, renderResult (renderCycle envEx "Linear Regression" i0 initState).1⟩ :=
  recompute_on_change envEx speciesEx "Linear Regression" i0 initState
    rfl (Or.inl rfl)

/-- An environment whose regression model predicts the raw value `5`:
rounding gives class `5`, outside the fitted range `[0, 2]`, so decoding
fails inside the `try` block. -/
def envBad : Env :=
  { df := some speciesEx
    linearPredict := fun _ => .ok 5
    logisticPredict := fun _ => .ok 0
    logisticProba := fun _ => .ok [1] }

lemma predictBlock_envBad :
    predictBlock (leClasses speciesEx) envBad "Linear Regression" i0 =
      .error () := by
  have h5 : roundHalfEven (5 : ℚ) = 5 := by
    simpa using roundHalfEven_intCast 5
  simp [predictBlock, envBad, h5, inverse_transform, leClasses_speciesEx,
    Bind.bind, Except.instMonad, Except.bind]

/-- C4: when the dataset is loaded and the gate is open, any failure of
the model/decode boundary (the whole `try` block, including an
out-of-range rounded class on the regression path) persists the explicit
absent pair and renders no prediction line — the failure is swallowed,
not propagated. -/
theorem predict_failure_absent_pair (env : Env) (col : List String)
    (selected : String) (cur : Inputs) (s : SessionState)
    (hdf : env.df = some col) (hgate : gateOpen s cur)
    (hfail : predictBlock (leClasses col) env selected cur = .error ()) :
    (renderCycle env selected cur s).1.species = some none ∧
    (renderCycle env selected cur s).1.confidence = some none ∧
    (renderCycle env selected cur s).2.1 = ⟨false, .ok none⟩ := by
  rw [renderCycle_open selected cur s hdf hgate, hfail]
  have hp := (applyResult_pair s cur).2 ()
  exact ⟨hp.1, hp.2, by simp [renderResult, applyResult]⟩

/-- Witness for C4: the unclamped regression path decoding class `5`
against three fitted classes. -/
theorem predict_failure_absent_pair_witness :
    (renderCycle envBad "Linear Regression" i0 initState).1.species =
      some none ∧
    (renderCycle envBad "Linear Regression" i0 initState).1.confidence =
      some none ∧
    (renderCycle envBad "Linear Regression" i0 initState).2.1 =
      ⟨false, .ok none⟩ :=
  predict_failure_absent_pair envBad speciesEx "Linear Regression" i0
    initState rfl (Or.inl rfl) predictBlock_envBad

/-- C6: on the regression path, when the raw prediction is `p` and the
rounded class decodes, the persisted confidence is `1 - |p - round p|`;
the rounded class is a nearest integer to `p`, and when `p` is exactly
an integer the confidence is `1`. -/
theorem regression_confidence_formula (env : Env) (col : List String)
    (cur : Inputs) (s : SessionState) (p : ℚ) (sp : String)
    (hdf : env.df = some col) (hgate : gateOpen s cur)
    (hp : env.linearPredict cur = .ok p)
    (hsp : inverse_transform (leClasses col) (roundHalfEven p) = .ok sp) :
    (renderCycle env "Linear Regression" cur s).1.confidence =
      some (some (1 - |p - (roundHalfEven p : ℚ)|)) ∧
    (∀ m : ℤ, |p - (roundHalfEven p : ℚ)| ≤ |p - (m : ℚ)|) ∧
    (∀ n : ℤ, p = (n : ℚ) → 1 - |p - (roundHalfEven p : ℚ)| = 1) := by
  have hpb : predictBlock (leClasses col) env "Linear Regression" cur =
      .ok (sp, 1 - |p - (roundHalfEven p : ℚ)|) := by
    simp [predictBlock, hp, hsp, Bind.bind, Except.instMonad, Except.bind]
  refine ⟨?_, fun m => roundHalfEven_dist_le p m, ?_⟩
  · rw [renderCycle_open "Linear Regression" cur s hdf hgate, hpb]
    exact ((applyResult_pair s cur).1 sp _).2
  · intro n hn
    subst hn
    rw [roundHalfEven_intCast]
    simp

/-- Witness for C6: raw prediction exactly `1` gives confidence `1`. -/
theorem regression_confidence_formula_witness :
    (renderCycle envExact "Linear Regression" i0 initState).1.confidence =
      some (some (1 - |(1 : ℚ) - (roundHalfEven 1 : ℚ)|)) ∧
    (∀ m : ℤ, |(1 : ℚ) - (roundHalfEven 1 : ℚ)| ≤ |(1 : ℚ) - (m : ℚ)|) ∧
    (∀ n : ℤ, (1 : ℚ) = (n : ℚ) →
      1 - |(1 : ℚ) - (roundHalfEven 1 : ℚ)| = 1) :=
  regression_confidence_formula envExact speciesEx i0 initState 1
    "versicolor" rfl (Or.inl rfl) rfl
    (by
      have h1 : roundHalfEven (1 : ℚ) = 1 := by
        simpa using roundHalfEven_intCast 1
      simp [h1, inverse_transform, leClasses_speciesEx])

/-- C5: a present, non-empty prediction renders with the colour of its
confidence percentage: green at and above 80, orange in `[50, 80)` (so
exactly 50 is orange, not red), red strictly below 50. -/
theorem color_thresholds (s : SessionState) (name : String) (c : ℚ)
    (h1 : s.species = some (some name)) (h2 : name ≠ "")
    (h3 : s.confidence = some (some c)) :
    renderResult s =
      .ok (some ⟨pyCapitalize name, format2dp (c * 100), colorOf (c * 100)⟩) ∧
    (80 ≤ c * 100 → colorOf (c * 100) = "green") ∧
    (50 ≤ c * 100 ∧ c * 100 < 80 → colorOf (c * 100) = "orange") ∧
    (c * 100 < 50 → colorOf (c * 100) = "red") := by
  refine ⟨by simp [renderResult, h1, h2, h3], ?_, ?_, ?_⟩
  · intro h
    simp only [colorOf, ge_iff_le, if_pos h]
  · rintro ⟨hl, hh⟩
    simp only [colorOf, ge_iff_le]
    rw [if_neg (by linarith), if_neg (by linarith)]
  · intro h
    simp only [colorOf, ge_iff_le]
    rw [if_neg (by linarith), if_pos h]

/-- Witness for C5: confidence `4/5`, i.e. exactly 80.00 percent, is
rendered green. -/
theorem color_thresholds_witness :
    renderResult sEx80 =
      .ok (some ⟨pyCapitalize "setosa", format2dp ((4/5 : ℚ) * 100),
        colorOf ((4/5 : ℚ) * 100)⟩) ∧
    colorOf ((4/5 : ℚ) * 100) = "green" :=
  ⟨(color_thresholds sEx80 "setosa" (4/5) rfl (by decide) rfl).1,
   (color_thresholds sEx80 "setosa" (4/5) rfl (by decide) rfl).2.1
     (by norm_num)⟩

/-- C9: the result display block is a pure function of the stored
species/confidence pair; an absent prediction (missing key or `None`
value) renders nothing, and a present one renders the title-cased
species name with the confidence percentage formatted to two decimals
and its threshold colour. -/
theorem renderer_pure_function :
    (∀ s t : SessionState, s.species = t.species →
      s.confidence = t.confidence → renderResult s = renderResult t) ∧
    (∀ s : SessionState, s.species = none → renderResult s = .ok none) ∧
    (∀ s : SessionState, s.species = some none → renderResult s = .ok none) ∧
    (∀ (s : SessionState) (name : String) (c : ℚ),
      s.species = some (some name) → name ≠ "" →
      s.confidence = some (some c) →
      renderResult s =
        .ok (some ⟨pyCapitalize name, format2dp (c * 100),
          colorOf (c * 100)⟩)) := by
  refine ⟨?_, ?_, ?_, ?_⟩
  · intro s t h1 h2
    unfold renderResult
    rw [h1, h2]
  · intro s h
    simp [renderResult, h]
  · intro s h
    simp [renderResult, h]
  · intro s name c h1 h2 h3
    simp [renderResult, h1, h2, h3]

/-- Witness for C9: a fresh session renders nothing; the example state
with a persisted pair renders its formatted line. -/
theorem renderer_pure_function_witness :
    renderResult initState = .ok none ∧
    renderResult sEx =
      .ok (some ⟨pyCapitalize "setosa", format2dp ((1 : ℚ) * 100),
        colorOf ((1 : ℚ) * 100)⟩) :=
  ⟨renderer_pure_function.2.1 initState rfl,
   renderer_pure_function.2.2.2 sEx "setosa" 1 rfl (by decide) rfl⟩

/-- An environment in which the dataset failed to load. -/
def envNone : Env :=
  { df := none
    linearPredict := fun _ => .error ()
    logisticPredict := fun _ => .error ()
    logisticProba := fun _ => .error () }

/-- C8: a failing fetch makes `load_data` return the explicit `None`
instead of raising, and a render cycle without a dataset displays only
the warning: no predict call, no prediction line, and the session state
is untouched. -/
theorem load_failure_warning_only :
    (∀ e : String, load_data (.error e) = none) ∧
    (∀ (env : Env) (selected : String) (cur : Inputs) (s : SessionState),
      env.df = none →
      renderCycle env selected cur s = (s, ⟨true, .ok none⟩, 0)) := by
  refine ⟨fun e => rfl, ?_⟩
  intro env selected cur s hdf
  simp only [renderCycle, hdf]

/-- Witness for C8 at a simulated network error. -/
theorem load_failure_warning_only_witness :
    load_data (.error "HTTPError") = none ∧
    renderCycle envNone "Linear Regression" i0 initState =
      (initState, ⟨true, .ok none⟩, 0) :=
  ⟨load_failure_warning_only.1 "HTTPError",
   load_failure_warning_only.2 envNone "Linear Regression" i0 initState rfl⟩

/-- The coupling of the stored pair: `species` and `confidence` keys are
absent together, hold `None` together, or hold values together. -/
def goodState (s : SessionState) : Prop :=
  (s.species = none ∧ s.confidence = none) ∨
  (s.species = some none ∧ s.confidence = some none) ∨
  (∃ sp c, s.species = some (some sp) ∧ s.confidence = some (some c))

lemma goodState_init : goodState initState := Or.inl ⟨rfl, rfl⟩

lemma goodState_step (env : Env) (selected : String) (cur : Inputs)
    (s : SessionState) (h : goodState s) :
    goodState (renderCycle env selected cur s).1 := by
  cases hdf : env.df with
  | none => simpa [renderCycle, hdf] using h
  | some col =>
    by_cases hg : gateOpen s cur
    · rw [renderCycle_open selected cur s hdf hg]
      cases hres : predictBlock (leClasses col) env selected cur with
      | ok v =>
        obtain ⟨sp, c⟩ := v
        exact Or.inr (Or.inr ⟨sp, c, (applyResult_pair s cur).1 sp c⟩)
      | error e =>
        exact Or.inr (Or.inl ((applyResult_pair s cur).2 e))
    · rw [renderCycle_closed selected cur s hdf hg]
      exact h

lemma renderResult_ne_error_of_goodState (s : SessionState)
    (h : goodState s) : renderResult s ≠ .error () := by
  rcases h with ⟨h1, h2⟩ | ⟨h1, h2⟩ | ⟨sp, c, h1, h2⟩ <;>
    simp [renderResult, h1, h2]
  split_ifs <;> simp

/-- C10: in every reachable session state the stored species and
confidence are coupled (written together, absent together), and the
display block never evaluates `confidence * 100` on an absent
confidence: rendering a reachable state never raises. -/
theorem session_pair_coupled (env : Env) (s : SessionState)
    (h : Reachable env s) :
    goodState s ∧ renderResult s ≠ .error () := by
  induction h with
  | init =>
    exact ⟨goodState_init,
      renderResult_ne_error_of_goodState _ goodState_init⟩
  | step s selected cur _ ih =>
    have hg := goodState_step env selected cur s ih.1
    exact ⟨hg, renderResult_ne_error_of_goodState _ hg⟩

/-- Witness for C10 at the initial state. -/
theorem session_pair_coupled_witness :
    goodState initState ∧ renderResult initState ≠ .error () :=
  session_pair_coupled envEx initState Reachable.init

lemma predictBlock_envEx_linear :
    predictBlock (leClasses speciesEx) envEx "Linear Regression" i0 =
      .ok ("setosa", 1) := by
  have h0 : roundHalfEven (0 : ℚ) = 0 := by
    simpa using roundHalfEven_intCast 0
  simp [predictBlock, envEx, h0, inverse_transform, leClasses_speciesEx,
    Bind.bind, Except.instMonad, Except.bind]

lemma predictBlock_envEx_logistic :
    predictBlock (leClasses speciesEx) envEx "Logistic Regression" i0 =
      .ok ("versicolor", 8/10) := by
  simp [predictBlock, envEx, inverse_transform, leClasses_speciesEx, pyMax,
    List.max?, Bind.bind, Except.instMonad, Except.bind]
  norm_num

lemma linear_step_state :
    (renderCycle envEx "Linear Regression" i0 initState).1 = sEx := by
  rw [renderCycle_open "Linear Regression" i0 initState rfl (Or.inl rfl),
    predictBlock_envEx_linear]
  rfl

lemma gate_closed_sEx : ¬ gateOpen sEx i0 := by
  rintro (h | h | h | h | h) <;> simp [sEx, i0] at h

lemma renderResult_sEx :
    renderResult sEx = .ok (some ⟨"Setosa", "100.00", "green"⟩) := by
  have hcap : pyCapitalize "setosa" = "Setosa" := by decide
  have hfmt : format2dp (100 : ℚ) = "100.00" := by
    norm_num [format2dp, roundHalfEven, pad2]
    decide
  have hcol : colorOf (100 : ℚ) = "green" := by norm_num [colorOf]
  simp [renderResult, sEx, hcap, hfmt, hcol]

/-- C1 counterexample: after a render under the linear selection at the
default inputs, re-rendering with the logistic selection and unchanged
inputs reaches a state that still displays the result of the linear model
("Setosa", 100.00%, green) although the currently selected logistic
model computes ("versicolor", 80%): the stored prediction was computed
by a model other than the one selected in that render. -/
theorem model_consistency_counterexample :
    Reachable envEx (renderCycle envEx "Linear Regression" i0 initState).1 ∧
    (renderCycle envEx "Logistic Regression" i0
        (renderCycle envEx "Linear Regression" i0 initState).1).2.1.line =
      .ok (some ⟨"Setosa", "100.00", "green"⟩) ∧
    predictBlock (leClasses speciesEx) envEx "Logistic Regression" i0 =
      .ok ("versicolor", 8/10) ∧
    pyCapitalize "versicolor" ≠ "Setosa" := by
  refine ⟨Reachable.step initState "Linear Regression" i0 Reachable.init,
    ?_, predictBlock_envEx_logistic, by decide⟩
  rw [linear_step_state,
    renderCycle_closed "Logistic Regression" i0 sEx rfl gate_closed_sEx,
    renderResult_sEx]

/-- C1 amended: every render with a loaded dataset leaves the stored
input tuple equal to the just-rendered inputs (consistency with the
Current Input Vector), and the displayed prediction is the currently
output of the selected model whenever the gate opened in that render (an
input changed or no prior result existed); when only the
algorithm-selection control changes, the gate stays closed and the stored prediction
of the previous model remains on display. -/
theorem input_consistency_and_gated_model_consistency (env : Env)
    (col : List String) (selected : String) (cur : Inputs)
    (s : SessionState) (hdf : env.df = some col) :
    ((renderCycle env selected cur s).1.sepal_length = some cur.sepal_length ∧
     (renderCycle env selected cur s).1.sepal_width = some cur.sepal_width ∧
     (renderCycle env selected cur s).1.petal_length = some cur.petal_length ∧
     (renderCycle env selected cur s).1.petal_width = some cur.petal_width) ∧
    (gateOpen s cur →
      (renderCycle env selected cur s).1 =
        applyResult s cur (predictBlock (leClasses col) env selected cur) ∧
      (renderCycle env selected cur s).2.1.line =
        renderResult
          (applyResult s cur (predictBlock (leClasses col) env selected cur))) := by
  by_cases hg : gateOpen s cur
  · rw [renderCycle_open selected cur s hdf hg]
    exact ⟨applyResult_inputs s cur _, fun _ => ⟨rfl, rfl⟩⟩
  · rw [renderCycle_closed selected cur s hdf hg]
    have hcl : ¬ (s.species = none) ∧
        s.sepal_length = some cur.sepal_length ∧
        s.sepal_width = some cur.sepal_width ∧
        s.petal_length = some cur.petal_length ∧
        s.petal_width = some cur.petal_width := by
      simpa [gateOpen, not_or] using hg
    exact ⟨⟨hcl.2.1, hcl.2.2.1, hcl.2.2.2.1, hcl.2.2.2.2⟩,
      fun h => absurd h hg⟩

/-- Witness for C1 (amended) at a fresh session with the default
inputs. -/
theorem input_consistency_and_gated_model_consistency_witness :
    (((renderCycle envEx "Linear Regression" i0 initState).1.sepal_length =
        some i0.sepal_length ∧
      (renderCycle envEx "Linear Regression" i0 initState).1.sepal_width =
        some i0.sepal_width ∧
      (renderCycle envEx "Linear Regression" i0 initState).1.petal_length =
        some i0.petal_length ∧
      (renderCycle envEx "Linear Regression" i0 initState).1.petal_width =
        some i0.petal_width) ∧
    (gateOpen initState i0 →
      (renderCycle envEx "Linear Regression" i0 initState).1 =
        applyResult initState i0
          (predictBlock (leClasses speciesEx) envEx "Linear Regression" i0) ∧
      (renderCycle envEx "Linear Regression" i0 initState).2.1.line =
        renderResult
          (applyResult initState i0
            (predictBlock (leClasses speciesEx) envEx "Linear Regression"
              i0)))) :=
  input_consistency_and_gated_model_consistency envEx speciesEx
    "Linear Regression" i0 initState rfl

end IrisApp
